import Mathlib

/-!
Verification development for the v2link-client core pipeline
(link parser, config synthesizer, port negotiator, config validator,
process supervisor), shallowly embedded from the Python sources in
`src/v2link_client/`.  String-processing helpers mirror the CPython 3.11
standard-library routines the code calls (`urllib.parse`, `uuid`,
`str.strip`, `int(_, 16)`), restricted where noted.
-/

deriving instance DecidableEq for Except

set_option maxRecDepth 40000

namespace V2Link

/-- ASCII lowercasing, the model of Python `str.lower` used here.  All
strings the parser compares against its enumerated sets are ASCII; the
Unicode cases of `str.lower` are not modelled. -/
def lowerChar (c : Char) : Char :=
  if 'A' ≤ c ∧ c ≤ 'Z' then Char.ofNat (c.toNat + 32) else c

def lowerStr (s : String) : String := String.mk (s.data.map lowerChar)

/-- Python `str.isspace` / the default strip set of `str.strip`:
ASCII whitespace, the C1 separators 0x1c–0x1f, NEL, NBSP, and the
Unicode space separators. -/
def isPySpace (c : Char) : Bool :=
  let n := c.toNat
  decide ((9 ≤ n ∧ n ≤ 13) ∨ n = 32 ∨ (28 ≤ n ∧ n ≤ 31) ∨ n = 133 ∨ n = 160 ∨
    n = 5760 ∨ (8192 ≤ n ∧ n ≤ 8202) ∨ n = 8232 ∨ n = 8233 ∨ n = 8239 ∨
    n = 8287 ∨ n = 12288)

def stripBothList (p : Char → Bool) (cs : List Char) : List Char :=
  ((cs.dropWhile p).reverse.dropWhile p).reverse

/-- Python `str.strip()` with no argument. -/
def pyStrip (s : String) : String := String.mk (stripBothList isPySpace s.data)

/-- Split at the first occurrence of `sep`, like Python `partition` /
`split(sep, 1)`; `none` when `sep` does not occur. -/
def splitFirst (sep : Char) : List Char → Option (List Char × List Char)
  | [] => none
  | c :: rest =>
    if c = sep then some ([], rest)
    else
      match splitFirst sep rest with
      | some (a, b) => some (c :: a, b)
      | none => none

/-- Split at the last occurrence of `sep`, like Python `rpartition`. -/
def splitLast (sep : Char) (cs : List Char) : Option (List Char × List Char) :=
  match splitFirst sep cs.reverse with
  | some (a, b) => some (b.reverse, a.reverse)
  | none => none

/-- Helper for `removeSubstr`: while `skip > 0`, discard characters
(the matched occurrence); at `skip = 0`, look for the next occurrence. -/
def removeSubstrAux (pat : List Char) (skip : Nat) : List Char → List Char
  | [] => []
  | c :: rest =>
    match skip with
    | n + 1 => removeSubstrAux pat n rest
    | 0 =>
      if pat.isPrefixOf (c :: rest) ∧ pat ≠ [] then
        removeSubstrAux pat (pat.length - 1) rest
      else
        c :: removeSubstrAux pat 0 rest

/-- Python `str.replace(pat, '')`: delete every (leftmost, non-overlapping)
occurrence of `pat`. -/
def removeSubstr (pat : List Char) (cs : List Char) : List Char :=
  removeSubstrAux pat 0 cs

def isHexChar (c : Char) : Bool :=
  decide (('0' ≤ c ∧ c ≤ '9') ∨ ('a' ≤ c ∧ c ≤ 'f') ∨ ('A' ≤ c ∧ c ≤ 'F'))

def hexVal (c : Char) : Nat :=
  if '0' ≤ c ∧ c ≤ '9' then c.toNat - 48
  else if 'a' ≤ c ∧ c ≤ 'f' then c.toNat - 87
  else if 'A' ≤ c ∧ c ≤ 'F' then c.toNat - 55
  else 0

/-- Digit run of `int(s, 16)` after its first digit: hex digits with single
underscores allowed between digits (no trailing or doubled underscore). -/
def hexRun (acc : Nat) : List Char → Option Nat
  | [] => some acc
  | '_' :: c :: rest => if isHexChar c then hexRun (acc * 16 + hexVal c) rest else none
  | ['_'] => none
  | c :: rest => if isHexChar c then hexRun (acc * 16 + hexVal c) rest else none

def hexStart : List Char → Option Nat
  | c :: rest => if isHexChar c then hexRun (hexVal c) rest else none
  | [] => none

/-- Python `int(s, 16)`: surrounding whitespace stripped, optional sign,
optional `0x`/`0X` prefix (an underscore may directly follow the prefix),
then hex digits with single underscores between digits. -/
def pyIntBase16 (s : String) : Option Int :=
  let cs0 := stripBothList isPySpace s.data
  let signBody : Int × List Char :=
    match cs0 with
    | '+' :: r => (1, r)
    | '-' :: r => (-1, r)
    | r => (1, r)
  let body : Option Nat :=
    match signBody.2 with
    | '0' :: c :: rest =>
      if c = 'x' ∨ c = 'X' then
        match rest with
        | '_' :: r2 => hexStart r2
        | r2 => hexStart r2
      else hexStart ('0' :: c :: rest)
    | cs => hexStart cs
  body.map (fun n => signBody.1 * (n : Int))

/-- `uuid.UUID(hex=s)` acceptance (CPython 3.11 `uuid.py`): delete every
`urn:` and `uuid:` substring, strip curly braces from both ends, delete
hyphens; the remainder must be 32 characters long, parse under
`int(_, 16)`, and the value must lie in `[0, 2^128)`. -/
def pyUUIDValid (s : String) : Bool :=
  let lb := Char.ofNat 123
  let rb := Char.ofNat 125
  let cs := removeSubstr "urn:".data s.data
  let cs := removeSubstr "uuid:".data cs
  let cs := stripBothList (fun c => c = lb || c = rb) cs
  let cs := cs.filter (fun c => c ≠ '-')
  if cs.length = 32 then
    match pyIntBase16 (String.mk cs) with
    | some v => decide (0 ≤ v ∧ v < (2 : Int) ^ 128)
    | none => false
  else false

/-- The U+FFFD replacement character. -/
def replChar : Char := Char.ofNat 65533

/-- Classify a byte in lead position: either a finished character (an
ASCII byte, or U+FFFD for an invalid lead) or the decoder state for a
multi-byte sequence: remaining continuation count, accumulated value, and
the admissible range of the next byte (the lead-dependent ranges exclude
overlong encodings, surrogates, and anything above U+10FFFF). -/
def utf8Lead (b : Nat) : Char ⊕ (Nat × Nat × Nat × Nat) :=
  if b < 128 then .inl (Char.ofNat b)
  else if 194 ≤ b ∧ b ≤ 223 then .inr (1, b - 192, 128, 191)
  else if 224 ≤ b ∧ b ≤ 239 then
    .inr (2, b - 224, (if b = 224 then 160 else 128), (if b = 237 then 159 else 191))
  else if 240 ≤ b ∧ b ≤ 244 then
    .inr (3, b - 240, (if b = 240 then 144 else 128), (if b = 244 then 143 else 191))
  else .inl replChar

/-- Incremental UTF-8 decoding with `errors='replace'` (CPython's policy:
one replacement character per maximal subpart of an ill-formed sequence).
`st` is `some (need, acc, lo, hi)` in the middle of a sequence. -/
def utf8Aux (st : Option (Nat × Nat × Nat × Nat)) : List Nat → List Char
  | [] =>
    match st with
    | none => []
    | some _ => [replChar]
  | b :: rest =>
    match st with
    | none =>
      match utf8Lead b with
      | .inl ch => ch :: utf8Aux none rest
      | .inr s => utf8Aux (some s) rest
    | some (need, acc, lo, hi) =>
      if lo ≤ b ∧ b ≤ hi then
        if need ≤ 1 then Char.ofNat (acc * 64 + (b - 128)) :: utf8Aux none rest
        else utf8Aux (some (need - 1, acc * 64 + (b - 128), 128, 191)) rest
      else
        replChar ::
          (match utf8Lead b with
           | .inl ch => ch :: utf8Aux none rest
           | .inr s => utf8Aux (some s) rest)

/-- `bytes.decode('utf-8', 'replace')`. -/
def utf8DecodeReplace (bs : List Nat) : List Char := utf8Aux none bs

/-- Tokenizer for `urllib.parse.unquote`: a `%XY` escape with two hex
digits becomes a byte, anything else stays a literal character. -/
def pctTokens : List Char → List (Nat ⊕ Char)
  | [] => []
  | '%' :: a :: b :: rest =>
    if isHexChar a ∧ isHexChar b then
      Sum.inl (hexVal a * 16 + hexVal b) :: pctTokens rest
    else Sum.inr '%' :: pctTokens (a :: b :: rest)
  | c :: rest => Sum.inr c :: pctTokens rest

/-- Decode token stream: maximal runs of escape bytes are decoded as one
UTF-8 byte string (matching `unquote_to_bytes` + `bytes.decode`). -/
def decodePctTokens (pending : List Nat) : List (Nat ⊕ Char) → List Char
  | [] => utf8DecodeReplace pending.reverse
  | Sum.inl b :: rest => decodePctTokens (b :: pending) rest
  | Sum.inr c :: rest =>
    utf8DecodeReplace pending.reverse ++ c :: decodePctTokens [] rest

/-- `urllib.parse.unquote` with the defaults used by the repo
(UTF-8, `errors='replace'`). -/
def pyUnquote (s : String) : String :=
  String.mk (decodePctTokens [] (pctTokens s.data))

/-- Python `str.replace('+', ' ')`, applied by `parse_qsl` before
percent-decoding. -/
def plusToSpace (cs : List Char) : List Char :=
  cs.map (fun c => if c = '+' then ' ' else c)

/-- Result of `urllib.parse.urlsplit` (the `params` split of `urlparse`
is irrelevant to the fields the repo reads). -/
structure UrlSplitResult where
  scheme : String
  netloc : String
  path : String
  query : String
  fragment : String
deriving DecidableEq, Repr

def schemeChar (c : Char) : Bool :=
  decide (('a' ≤ c ∧ c ≤ 'z') ∨ ('A' ≤ c ∧ c ≤ 'Z') ∨ ('0' ≤ c ∧ c ≤ '9') ∨
    c = '+' ∨ c = '-' ∨ c = '.')

def isAsciiAlpha (c : Char) : Bool :=
  decide (('a' ≤ c ∧ c ≤ 'z') ∨ ('A' ≤ c ∧ c ≤ 'Z'))

/-- Fragment/query split and the `_checknetloc` guard of `urlsplit`.
`_checknetloc` raises only for authorities that are not pure ASCII (and
whose NFKC normalization introduces separators); NFKC is not modelled, so
non-ASCII authorities are conservatively rejected here. -/
def pyUrlsplitCore (scheme : String) (netloc : List Char) (after : List Char) :
    Except String UrlSplitResult :=
  if ¬ netloc.all (fun c => c.toNat < 128) then
    .error "netloc: non-ASCII authority not modelled"
  else
    let fr : List Char × List Char :=
      match splitFirst '#' after with
      | some (u, f) => (u, f)
      | none => (after, [])
    let qr : List Char × List Char :=
      match splitFirst '?' fr.1 with
      | some (u, q) => (u, q)
      | none => (fr.1, [])
    .ok ⟨scheme, String.mk netloc, String.mk qr.1, String.mk qr.2, String.mk fr.2⟩

/-- `urllib.parse.urlsplit` (CPython 3.11): WHATWG C0-control/space
left-strip, removal of tab/CR/LF, scheme extraction, authority split with
the bracket checks, then fragment and query splits.  Errors are the
`ValueError`s `urlsplit` raises; a bracketed (IPv6) authority is
conservatively rejected in place of `_check_bracketed_host`'s `ipaddress`
validation. -/
def pyUrlsplit (url : String) : Except String UrlSplitResult :=
  let cs0 := url.data.dropWhile (fun c => c.toNat ≤ 32)
  let cs := cs0.filter (fun c => ¬ (c = '\t' ∨ c = '\r' ∨ c = '\n'))
  let schemeRest : String × List Char :=
    match splitFirst ':' cs with
    | some (pre, post) =>
      if pre ≠ [] ∧ isAsciiAlpha (pre.headD 'a') ∧ pre.all schemeChar then
        (String.mk (pre.map lowerChar), post)
      else ("", cs)
    | none => ("", cs)
  match schemeRest.2 with
  | '/' :: '/' :: r =>
    let netloc := r.takeWhile (fun c => ¬ (c = '/' ∨ c = '?' ∨ c = '#'))
    let after := r.dropWhile (fun c => ¬ (c = '/' ∨ c = '?' ∨ c = '#'))
    if (netloc.contains '[' && !netloc.contains ']') ||
        (netloc.contains ']' && !netloc.contains '[') then
      .error "Invalid IPv6 URL"
    else if netloc.contains '[' then
      .error "bracketed host: ipaddress validation not modelled"
    else pyUrlsplitCore schemeRest.1 netloc after
  | rest => pyUrlsplitCore schemeRest.1 [] rest

/-- `SplitResult._userinfo`: text before the last `@` of the authority. -/
def urlUserinfo (netloc : List Char) : Option (List Char) :=
  match splitLast '@' netloc with
  | some (ui, _) => some ui
  | none => none

/-- `SplitResult.username`: userinfo up to the first `:`. -/
def pyUsername (r : UrlSplitResult) : Option String :=
  match urlUserinfo r.netloc.data with
  | some ui =>
    match splitFirst ':' ui with
    | some (u, _) => some (String.mk u)
    | none => some (String.mk ui)
  | none => none

/-- `SplitResult._hostinfo`: host text and port text of the authority. -/
def urlHostPort (netloc : List Char) : List Char × List Char :=
  let hostinfo :=
    match splitLast '@' netloc with
    | some (_, hp) => hp
    | none => netloc
  match splitFirst '[' hostinfo with
  | some (_, bracketed) =>
    match splitFirst ']' bracketed with
    | some (h, afterBr) =>
      let port :=
        match splitFirst ':' afterBr with
        | some (_, p) => p
        | none => []
      (h, port)
    | none => (bracketed, [])
  | none =>
    match splitFirst ':' hostinfo with
    | some (h, p) => (h, p)
    | none => (hostinfo, [])

/-- `SplitResult.hostname`: lowercased, leaving a scoped-zone suffix
after `%` untouched; `none` when empty. -/
def pyHostname (r : UrlSplitResult) : Option String :=
  let h := (urlHostPort r.netloc.data).1
  if h = [] then none
  else
    match splitFirst '%' h with
    | some (pre, post) => some (String.mk (pre.map lowerChar ++ '%' :: post))
    | none => some (String.mk (h.map lowerChar))

def isAsciiDigit (c : Char) : Bool := decide ('0' ≤ c ∧ c ≤ '9')

def digitsToNat (cs : List Char) : Nat :=
  cs.foldl (fun a c => a * 10 + (c.toNat - 48)) 0

/-- `SplitResult.port` (CPython 3.11): empty port text is `None`; a
non-empty port must be ASCII digits and at most 65535, otherwise a
`ValueError` is raised. -/
def pyPort (r : UrlSplitResult) : Except String (Option Nat) :=
  let p := (urlHostPort r.netloc.data).2
  if p = [] then .ok none
  else if p.all isAsciiDigit then
    let v := digitsToNat p
    if v ≤ 65535 then .ok (some v) else .error "Port out of range 0-65535"
  else .error "Port could not be cast to integer value"

theorem splitFirst_length (sep : Char) :
    ∀ cs a b : List Char, splitFirst sep cs = some (a, b) →
      a.length + b.length + 1 = cs.length := by
  intro cs
  induction cs with
  | nil => intro a b h; simp [splitFirst] at h
  | cons c rest ih =>
    intro a b h
    simp only [splitFirst] at h
    by_cases hc : c = sep
    · simp only [if_pos hc, Option.some.injEq, Prod.mk.injEq] at h
      obtain ⟨h1, h2⟩ := h
      subst h1; subst h2
      simp
    · simp only [if_neg hc] at h
      rcases heq : splitFirst sep rest with _ | ⟨a', b'⟩ <;> rw [heq] at h
      · simp at h
      · simp only [Option.some.injEq, Prod.mk.injEq] at h
        obtain ⟨h1, h2⟩ := h
        subst h1; subst h2
        have := ih a' b' heq
        simp only [List.length_cons]
        omega

/-- Python `str.split(sep)` for a one-character separator (keeps empty
pieces, as Python does). -/
def splitAllChar (sep : Char) : List Char → List (List Char)
  | [] => [[]]
  | c :: rest =>
    if c = sep then [] :: splitAllChar sep rest
    else
      match splitAllChar sep rest with
      | piece :: pieces => (c :: piece) :: pieces
      | [] => [[c]]

/-- One field of `urllib.parse.parse_qsl` with `keep_blank_values=True`:
empty fields are dropped, a field without `=` keeps a blank value, then
`+` becomes space and both name and value are percent-decoded. -/
def qslField (field : List Char) : Option (String × String) :=
  if field = [] then none
  else
    let nv : List Char × List Char :=
      match splitFirst '=' field with
      | some (n, v) => (n, v)
      | none => (field, [])
    some (pyUnquote (String.mk (plusToSpace nv.1)),
      pyUnquote (String.mk (plusToSpace nv.2)))

/-- `urllib.parse.parse_qsl(qs, keep_blank_values=True)`. -/
def pyParseQsl (qs : String) : List (String × String) :=
  if qs = "" then [] else (splitAllChar '&' qs.data).filterMap qslField

/-- The dict-building step of `parse_qs`: append to an existing key's
value list, else add a new key at the end (insertion order). -/
def groupInsert : List (String × List String) → String → String →
    List (String × List String)
  | [], n, v => [(n, [v])]
  | (k, vs) :: rest, n, v =>
    if k = n then (k, vs ++ [v]) :: rest else (k, vs) :: groupInsert rest n v

/-- `urllib.parse.parse_qs(qs, keep_blank_values=True)` as an ordered
association list. -/
def pyParseQs (qs : String) : List (String × List String) :=
  (pyParseQsl qs).foldl (fun d p => groupInsert d p.1 p.2) []

/-- Python dict assignment `d[k] = v`: replace in place when the key
exists, else append. -/
def assocSet : List (String × List String) → String → List String →
    List (String × List String)
  | [], k, v => [(k, v)]
  | (k', v') :: rest, k, v =>
    if k' = k then (k', v) :: rest else (k', v') :: assocSet rest k v

/-- The comprehension at `link_parser.py:108`:
lowercase every key of the parsed query dict. -/
def lowerDict (d : List (String × List String)) : List (String × List String) :=
  d.foldl (fun acc kv => assocSet acc (lowerStr kv.1) kv.2) []

def assocGet : List (String × List String) → String → Option (List String)
  | [], _ => none
  | (k', v) :: rest, k => if k' = k then some v else assocGet rest k

/-- `link_parser._first`: the first value stored under `key`, stripped;
a missing key, empty list, or blank first value yields `none`. -/
def queryFirst (query : List (String × List String)) (key : String) :
    Option String :=
  match assocGet query key with
  | none => none
  | some [] => none
  | some (v :: _) =>
    let v := pyStrip v
    if v = "" then none else some v

/-- `link_parser._parse_bool`. -/
def pyParseBool : Option String → Option Bool
  | none => none
  | some v =>
    let n := lowerStr (pyStrip v)
    if n = "1" ∨ n = "true" ∨ n = "yes" ∨ n = "y" ∨ n = "on" then some true
    else if n = "0" ∨ n = "false" ∨ n = "no" ∨ n = "n" ∨ n = "off" then some false
    else none

/-- `link_parser.VlessLink` (the frozen dataclass). -/
structure VlessLink where
  scheme : String
  name : Option String
  userId : String
  host : String
  port : Nat
  encryption : String
  security : String
  transport : String
  sni : Option String
  fingerprint : Option String
  allowInsecure : Bool
  headerType : Option String
  path : Option String
  wsHost : Option String
  grpcServiceName : Option String
  flow : Option String
  alpn : Option (List String)
deriving DecidableEq, Repr

/-- The failures `parse_link` can produce.  `emptyInput`, `malformedLink`,
`invalidUserId`, `unsupportedTransport` and `unsupportedSecurity` are
raise sites of `InvalidLinkError`; `unsupportedScheme` and
`schemeNotImplemented` are the two raise sites of
`UnsupportedSchemeError`; `pyValueError` is a raw `ValueError` escaping
from `urllib.parse` (it is not one of the application error classes). -/
inductive LinkError where
  | emptyInput
  | unsupportedScheme (scheme : String)
  | schemeNotImplemented (scheme : String)
  | malformedLink
  | invalidUserId
  | unsupportedTransport (transport : String)
  | unsupportedSecurity (security : String)
  | pyValueError (msg : String)
deriving DecidableEq, Repr

def SUPPORTED_SCHEMES : List String := ["vmess", "vless", "trojan", "ss"]

/-- `link_parser._parse_vless`. -/
def parseVless (raw : String) : Except LinkError VlessLink :=
  match pyUrlsplit raw with
  | .error m => .error (.pyValueError m)
  | .ok parsed =>
    let userId := (pyUsername parsed).getD ""
    let host := (pyHostname parsed).getD ""
    match pyPort parsed with
    | .error m => .error (.pyValueError m)
    | .ok portOpt =>
      match portOpt with
      | none => .error .malformedLink
      | some port =>
        if userId = "" ∨ host = "" then .error .malformedLink
        else if ¬ pyUUIDValid userId then .error .invalidUserId
        else
          let query := lowerDict (pyParseQs parsed.query)
          let encryption := (queryFirst query "encryption").getD "none"
          let security0 := (queryFirst query "security").getD "none"
          let transport0 :=
            ((queryFirst query "type").orElse
              (fun _ => queryFirst query "transport")).getD "tcp"
          let allowInsecure := (pyParseBool (queryFirst query "allowinsecure")).getD false
          let sni := (queryFirst query "sni").orElse (fun _ => queryFirst query "servername")
          let fingerprint :=
            (queryFirst query "fp").orElse (fun _ => queryFirst query "fingerprint")
          let headerType := queryFirst query "headertype"
          let path := queryFirst query "path"
          let wsHost := queryFirst query "host"
          let grpcServiceName := queryFirst query "servicename"
          let flow := queryFirst query "flow"
          let alpn : Option (List String) :=
            match queryFirst query "alpn" with
            | some araw =>
              let parts := (splitAllChar ',' araw.data).map (fun p => pyStrip (String.mk p))
              let parts := parts.filter (fun p => p ≠ "")
              if parts = [] then none else some parts
            | none => none
          let name := if parsed.fragment ≠ "" then some (pyUnquote parsed.fragment) else none
          let transport := lowerStr transport0
          if ¬ (transport = "tcp" ∨ transport = "ws" ∨ transport = "grpc") then
            .error (.unsupportedTransport transport)
          else
            let security := lowerStr security0
            if ¬ (security = "none" ∨ security = "tls") then
              .error (.unsupportedSecurity security)
            else
              .ok { scheme := "vless", name, userId, host, port, encryption, security,
                    transport, sni, fingerprint, allowInsecure, headerType, path,
                    wsHost, grpcServiceName, flow, alpn }

/-- `link_parser.parse_link`. -/
def parseLink (raw : String) : Except LinkError VlessLink :=
  let raw := pyStrip raw
  if raw = "" then .error .emptyInput
  else
    match pyUrlsplit raw with
    | .error m => .error (.pyValueError m)
    | .ok parsed =>
      let scheme := lowerStr parsed.scheme
      if scheme ∉ SUPPORTED_SCHEMES then .error (.unsupportedScheme scheme)
      else if scheme ≠ "vless" then .error (.schemeNotImplemented scheme)
      else parseVless raw

/-- The nested JSON-like document `config_builder` produces (Python dicts
keep insertion order, so objects carry an ordered field list). -/
inductive JVal where
  | jstr (s : String)
  | jnat (n : Nat)
  | jbool (b : Bool)
  | jarr (items : List JVal)
  | jobj (fields : List (String × JVal))
deriving Repr

def jsonQuoteChar (c : Char) : String :=
  if c = '"' then "\\\""
  else if c = '\\' then "\\\\"
  else if c.toNat < 32 then
    let h := Nat.toDigits 16 c.toNat
    "\\u" ++ String.mk (List.replicate (4 - h.length) '0') ++ String.mk h
  else String.mk [c]

def jsonQuote (s : String) : String :=
  "\"" ++ String.join (s.data.map jsonQuoteChar) ++ "\""

mutual

/-- Deterministic serialization of a configuration document.  Modelled
from the spec: the serialized form itself is written by `storage.save_json`,
which is not under `src/`; any fixed deterministic rendering witnesses the
"byte-identical when serialized" phrasing. -/
def jvalDump : JVal → String
  | .jstr s => jsonQuote s
  | .jnat n => toString n
  | .jbool b => if b then "true" else "false"
  | .jarr items => "[" ++ jarrDump items ++ "]"
  | .jobj fields => "\x7b" ++ jobjDump fields ++ "\x7d"

def jarrDump : List JVal → String
  | [] => ""
  | [v] => jvalDump v
  | v :: rest => jvalDump v ++ ", " ++ jarrDump rest

def jobjDump : List (String × JVal) → String
  | [] => ""
  | [(k, v)] => jsonQuote k ++ ": " ++ jvalDump v
  | (k, v) :: rest => jsonQuote k ++ ": " ++ jvalDump v ++ ", " ++ jobjDump rest

end

def DEFAULT_LISTEN : String := "127.0.0.1"
def DEFAULT_SOCKS_PORT : Nat := 1080
def DEFAULT_HTTP_PORT : Nat := 8080

/-- `config_builder._build_xray_stream_settings`, returning the ordered
field list added after `"network"`; errors are the `ConfigBuildError`
details raised there. -/
def buildXrayStreamSettings (link : VlessLink) : Except String JVal :=
  let transportPart : Except String (List (String × JVal)) :=
    if link.transport = "ws" then
      let path := match link.path with
        | some p => if p ≠ "" then p else "/"
        | none => "/"
      let headers : List (String × JVal) :=
        match link.wsHost with
        | some h => if h ≠ "" then [("Host", .jstr h)] else []
        | none => []
      let wsSettings := [("path", JVal.jstr path)] ++
        (if headers.isEmpty then [] else [("headers", JVal.jobj headers)])
      .ok [("wsSettings", .jobj wsSettings)]
    else if link.transport = "grpc" then
      match link.grpcServiceName with
      | some sname =>
        if sname = "" then .error "Missing gRPC serviceName"
        else .ok [("grpcSettings", .jobj [("serviceName", .jstr sname)])]
      | none => .error "Missing gRPC serviceName"
    else if link.transport = "tcp" then
      let headerType := lowerStr (pyStrip (link.headerType.getD "none"))
      if headerType = "none" ∨ headerType = "" then .ok []
      else if headerType ≠ "http" then
        .error ("Unsupported TCP header type: " ++ headerType)
      else
        let request : List (String × JVal) :=
          (match link.path with
           | some p => if p ≠ "" then [("path", JVal.jarr [.jstr p])] else []
           | none => []) ++
          (match link.wsHost with
           | some h => if h ≠ "" then [("headers", JVal.jobj [("Host", .jarr [.jstr h])])] else []
           | none => [])
        .ok [("tcpSettings", .jobj [("header", .jobj
          [("type", .jstr "http"), ("request", .jobj request)])])]
    else .error ("Unsupported transport: " ++ link.transport)
  transportPart.map (fun tp =>
    let tls : List (String × JVal) :=
      if link.security = "tls" then
        let serverName := match link.sni with
          | some s => if s ≠ "" then s else link.host
          | none => link.host
        let tlsSettings :=
          [("allowInsecure", JVal.jbool link.allowInsecure),
           ("serverName", JVal.jstr serverName)] ++
          (match link.fingerprint with
           | some f => if f ≠ "" then [("fingerprint", JVal.jstr f)] else []
           | none => []) ++
          (match link.alpn with
           | some xs => if xs ≠ [] then [("alpn", JVal.jarr (xs.map JVal.jstr))] else []
           | none => [])
        [("security", JVal.jstr "tls"), ("tlsSettings", JVal.jobj tlsSettings)]
      else []
    .jobj ([("network", JVal.jstr link.transport)] ++ tp ++ tls))

/-- `config_builder.build_xray_config`.  `ParsedLink = VlessLink`, so the
`isinstance` guard can never fire and is not modelled; `logs_dir` is taken
as a given path string (the `get_logs_dir()` fallback lives in the missing
`storage` module), and `Path / name` is path-join. -/
def buildXrayConfig (link : VlessLink) (listen : String) (socksPort httpPort : Nat)
    (logsDir : String) : Except String JVal :=
  match buildXrayStreamSettings link with
  | .error e => .error e
  | .ok stream =>
    let users : List (String × JVal) :=
      [("id", .jstr link.userId), ("encryption", .jstr link.encryption)] ++
      (match link.flow with
       | some f => if f ≠ "" then [("flow", JVal.jstr f)] else []
       | none => [])
    let outbound : JVal := .jobj
      [("tag", .jstr "proxy"), ("protocol", .jstr "vless"),
       ("settings", .jobj [("vnext", .jarr [.jobj
          [("address", .jstr link.host), ("port", .jnat link.port),
           ("users", .jarr [.jobj users])]])]),
       ("streamSettings", stream)]
    let sniffing : JVal := .jobj [("enabled", .jbool true),
      ("destOverride", .jarr [.jstr "http", .jstr "tls", .jstr "quic"])]
    .ok (.jobj
      [("log", .jobj [("loglevel", .jstr "warning"),
          ("access", .jstr (logsDir ++ "/xray_access.log")),
          ("error", .jstr (logsDir ++ "/xray_error.log"))]),
       ("inbounds", .jarr
         [.jobj [("tag", .jstr "socks-in"), ("listen", .jstr listen),
                 ("port", .jnat socksPort), ("protocol", .jstr "socks"),
                 ("settings", .jobj [("auth", .jstr "noauth"), ("udp", .jbool true)]),
                 ("sniffing", sniffing)],
          .jobj [("tag", .jstr "http-in"), ("listen", .jstr listen),
                 ("port", .jnat httpPort), ("protocol", .jstr "http"),
                 ("settings", .jobj []), ("sniffing", sniffing)]]),
       ("outbounds", .jarr
         [outbound,
          .jobj [("tag", .jstr "direct"), ("protocol", .jstr "freedom"),
                 ("settings", .jobj [])],
          .jobj [("tag", .jstr "block"), ("protocol", .jstr "blackhole"),
                 ("settings", .jobj [])]])])

/-- Outcome of one `ensure_port_available` probe.  `portInUse` and
`permissionDenied` are the two `AppError`s it classifies (both caught by
the caller's `except AppError`); `osError` is any other `OSError`, which
`ensure_port_available` re-raises and `_pick_proxy_ports` does not catch. -/
inductive ProbeOutcome where
  | available
  | portInUse
  | permissionDenied
  | osError
deriving DecidableEq, Repr

/-- Environment for `MainWindow._pick_proxy_ports`: the probe outcomes for
the two default ports and the ports that successive `find_free_port`
calls return, indexed by call number. -/
structure PortEnv where
  socksProbe : ProbeOutcome
  httpProbe : ProbeOutcome
  free : Nat → Nat

inductive PickResult where
  | ports (socksPort httpPort : Nat)
  | raised
  | fuelOut
deriving DecidableEq, Repr

/-- The `while http_port == socks_port` re-roll loop of
`_pick_proxy_ports`; `i` indexes the next `find_free_port` call, `fuel`
bounds the number of iterations (the Python loop is unbounded). -/
def rerollHttp (env : PortEnv) (socksPort : Nat) : Nat → Nat → Nat → PickResult
  | fuel, httpPort, i =>
    if httpPort = socksPort then
      match fuel with
      | 0 => .fuelOut
      | f + 1 => rerollHttp env socksPort f (env.free i) (i + 1)
    else .ports socksPort httpPort

/-- `MainWindow._pick_proxy_ports`: probe the two default ports, replace
an unavailable one by a `find_free_port` result (the HTTP replacement is
the second `find_free_port` call when the SOCKS default was also
replaced), then re-roll the HTTP port while it collides with the SOCKS
port. -/
def pickProxyPorts (env : PortEnv) (fuel : Nat) : PickResult :=
  if env.socksProbe = .osError then .raised
  else if env.httpProbe = .osError then .raised
  else
    rerollHttp env
      (if env.socksProbe = .available then DEFAULT_SOCKS_PORT else env.free 0)
      fuel
      (if env.httpProbe = .available then DEFAULT_HTTP_PORT
       else env.free (if env.socksProbe = .available then 0 else 1))
      ((if env.socksProbe = .available then 0 else 1) +
        (if env.httpProbe = .available then 0 else 1))

/-- `process_manager.CoreBinary`. -/
structure CoreBinary where
  name : String
  path : String
deriving DecidableEq, Repr

/-- A `subprocess.Popen` handle: `poll` is `none` while the OS process
runs and the exit code once it has exited. -/
structure PyProc where
  pid : Nat
  poll : Option Int
deriving DecidableEq, Repr

/-- The state of an `XrayProcessManager` instance, extended with
`openHandles`: the ids of log-file handles this manager opened and has
not closed (its resource footprint), and `nextHandle`, the id the next
`open` call yields. -/
structure XPMState where
  xray : Option CoreBinary
  proc : Option PyProc
  stdoutHandle : Option Nat
  stdoutPath : Option String
  openHandles : List Nat
  nextHandle : Nat
deriving DecidableEq, Repr

def XPMState.initial : XPMState := ⟨none, none, none, none, [], 0⟩

/-- `XrayProcessManager.is_running`. -/
def XPMState.isRunning (s : XPMState) : Bool :=
  match s.proc with
  | some p => p.poll = none
  | none => false

/-- `XrayProcessManager.returncode`. -/
def XPMState.returncode (s : XPMState) : Option Int :=
  match s.proc with
  | some p => p.poll
  | none => none

/-- What the `subprocess.Popen` call in `start` does. -/
inductive LaunchOutcome where
  | launched (pid : Nat)
  | fileNotFound
  | permissionError
deriving DecidableEq, Repr

/-- Environment of one `start` call: the `shutil.which("xray")` result
(consulted only when no binary is cached), the `Popen` outcome, and the
logs directory (`storage.get_logs_dir()` is not under `src/`). -/
structure StartEnv where
  whichXray : Option String
  launch : LaunchOutcome
  logsDir : String

inductive StartError where
  | binaryMissing
  | permissionDenied
deriving DecidableEq, Repr

/-- `XrayProcessManager.start`.  Mirrors the method statement by
statement: the early return while running; binary resolution (raising
`BinaryMissingError` before any other mutation when `which` fails);
setting `_stdout_path` and opening the log handle in append mode; then
`Popen`, whose `FileNotFoundError` / `PermissionError` are re-raised as
`BinaryMissingError` / `PermissionDeniedError`.  The state mutations
performed before a raise persist, exactly as in Python. -/
def start (s : XPMState) (env : StartEnv) : XPMState × Except StartError Unit :=
  if s.isRunning then (s, .ok ())
  else
    let resolved : Option CoreBinary :=
      match s.xray with
      | some b => some b
      | none =>
        match env.whichXray with
        | some p => some ⟨"xray", p⟩
        | none => none
    match resolved with
    | none => (s, .error .binaryMissing)
    | some xray =>
      let handle := s.nextHandle
      let s1 : XPMState :=
        { s with
          xray := some xray
          stdoutPath := some (env.logsDir ++ "/xray_stdout.log")
          stdoutHandle := some handle
          openHandles := handle :: s.openHandles
          nextHandle := s.nextHandle + 1 }
      match env.launch with
      | .launched pid => ({ s1 with proc := some ⟨pid, none⟩ }, .ok ())
      | .fileNotFound => (s1, .error .binaryMissing)
      | .permissionError => (s1, .error .permissionDenied)

/-- Environment of one `stop` call: whether the process exits within the
timeout after `terminate()` (`gracefulExit`), and after `kill()`
(`killExit`); `none` models `subprocess.TimeoutExpired` from the wait. -/
structure StopEnv where
  gracefulExit : Option Int
  killExit : Option Int

inductive StopError where
  | timeoutExpired
deriving DecidableEq, Repr

/-- `XrayProcessManager.stop`: early return when no process handle is
held; otherwise clear the handle, terminate and wait, escalating to kill;
the `finally` block always closes the log handle.  A `TimeoutExpired`
from the post-kill wait propagates after that cleanup. -/
def stop (s : XPMState) (env : StopEnv) : XPMState × Except StopError Unit :=
  match s.proc with
  | none => (s, .ok ())
  | some _ =>
    let s1 : XPMState := { s with proc := none }
    let closed : XPMState :=
      match s1.stdoutHandle with
      | some h => { s1 with stdoutHandle := none, openHandles := s1.openHandles.erase h }
      | none => s1
    match env.gracefulExit with
    | some _ => (closed, .ok ())
    | none =>
      match env.killExit with
      | some _ => (closed, .ok ())
      | none => (closed, .error .timeoutExpired)

/-- Outcome of the `subprocess.run` self-test call in
`validate_xray_config`. -/
inductive RunOutcome where
  | completed (returncode : Int) (stdout stderr : String)
  | fileNotFound
  | permissionError
  | timedOut
deriving DecidableEq, Repr

/-- What `validate_xray_config` lets escape.  The first three wrap the
run outcome in the application's error classes; `timeoutExpired` is the
raw `subprocess.TimeoutExpired`, which no `except` clause there
catches. -/
inductive ValidateError where
  | binaryMissing (detail : String)
  | permissionDenied (detail : String)
  | configBuild (detail : String)
  | timeoutExpired
deriving DecidableEq, Repr

/-- Whether an escape of `validate` belongs to the documented error
taxonomy (`ConfigBuildError`, `BinaryMissingError`,
`PermissionDeniedError`). -/
def isDocumentedErrorKind : ValidateError → Bool
  | .binaryMissing _ => true
  | .permissionDenied _ => true
  | .configBuild _ => true
  | .timeoutExpired => false

/-- `process_manager.validate_xray_config`. -/
def validateXrayConfig (xray : CoreBinary) (outcome : RunOutcome) :
    Except ValidateError Unit :=
  match outcome with
  | .fileNotFound =>
    .error (.binaryMissing (xray.name ++ " binary missing: " ++ xray.path))
  | .permissionError =>
    .error (.permissionDenied (xray.name ++ " not executable: " ++ xray.path))
  | .timedOut => .error .timeoutExpired
  | .completed rc out err =>
    if rc = 0 then .ok ()
    else
      let serr := pyStrip err
      let sout := pyStrip out
      let detail :=
        if serr ≠ "" then serr
        else if sout ≠ "" then sout
        else "exit code " ++ toString rc
      .error (.configBuild ("xray config validation failed: " ++ detail))

theorem rerollHttp_distinct (env : PortEnv) (socksPort : Nat) :
    ∀ fuel httpPort i s h,
      rerollHttp env socksPort fuel httpPort i = .ports s h → s ≠ h := by
  intro fuel
  induction fuel with
  | zero =>
    intro hp i s h heq
    by_cases hc : hp = socksPort
    · simp [rerollHttp, hc] at heq
    · simp [rerollHttp, hc] at heq
      obtain ⟨h1, h2⟩ := heq
      subst h1; subst h2
      exact fun e => hc e.symm
  | succ f ih =>
    intro hp i s h heq
    by_cases hc : hp = socksPort
    · simp only [rerollHttp, hc, if_pos] at heq
      exact ih _ _ _ _ heq
    · simp [rerollHttp, hc] at heq
      obtain ⟨h1, h2⟩ := heq
      subst h1; subst h2
      exact fun e => hc e.symm

/-- C6: whenever `_pick_proxy_ports` returns a pair of ports, they are
distinct; and when both default-port probes report available, the result
is exactly the default SOCKS and HTTP ports, unchanged. -/
theorem c6_port_selection (env : PortEnv) (fuel : Nat) (s h : Nat) :
    (pickProxyPorts env fuel = .ports s h → s ≠ h) ∧
    (env.socksProbe = .available → env.httpProbe = .available →
      pickProxyPorts env fuel = .ports DEFAULT_SOCKS_PORT DEFAULT_HTTP_PORT) := by
  constructor
  · intro heq
    unfold pickProxyPorts at heq
    split at heq
    · simp at heq
    · split at heq
      · simp at heq
      · exact rerollHttp_distinct env _ fuel _ _ s h heq
  · intro hs hh
    simp only [pickProxyPorts, hs, hh]
    unfold rerollHttp
    simp [DEFAULT_SOCKS_PORT, DEFAULT_HTTP_PORT]

theorem c6_witness :
    pickProxyPorts ⟨.available, .available, fun _ => 0⟩ 0 = .ports 1080 8080 ∧
      (1080 : Nat) ≠ 8080 := by
  have hth := c6_port_selection ⟨.available, .available, fun _ => 0⟩ 0 1080 8080
  have hdef := hth.2 rfl rfl
  exact ⟨hdef, hth.1 hdef⟩

/-- C8: a `start` call while the supervisor is Running is a silent no-op:
no error, no second process, and the whole supervisor state (process
handle, log handle, log path) is returned unchanged. -/
theorem c8_start_running_noop (s : XPMState) (env : StartEnv)
    (h : s.isRunning = true) :
    start s env = (s, .ok ()) := by
  simp [start, h]

theorem c8_witness :
    start ⟨none, some ⟨1, none⟩, none, none, [], 0⟩
        ⟨some "/usr/bin/xray", .launched 2, "/logs"⟩ =
      (⟨none, some ⟨1, none⟩, none, none, [], 0⟩, .ok ()) :=
  c8_start_running_noop _ _ rfl

/-- C9: `stop` on a supervisor holding no process handle is a no-op that
raises nothing and leaves the state unchanged. -/
theorem c9_stop_absent_noop (s : XPMState) (env : StopEnv)
    (h : s.proc = none) :
    stop s env = (s, .ok ()) := by
  simp [stop, h]

theorem c9_witness :
    stop XPMState.initial ⟨some 0, some 0⟩ = (XPMState.initial, .ok ()) :=
  c9_stop_absent_noop _ _ rfl

/-- C10: when the self-test subprocess exceeds the validation timeout,
`validate_xray_config` lets the raw `subprocess.TimeoutExpired` escape,
and that exception is none of the documented error kinds
(`ConfigBuildError`, `BinaryMissing`, `PermissionDenied`). -/
theorem c10_timeout_escapes_taxonomy (xray : CoreBinary) :
    validateXrayConfig xray .timedOut = .error .timeoutExpired ∧
      isDocumentedErrorKind .timeoutExpired = false :=
  ⟨rfl, rfl⟩

/-- C1 counterexample: from the Absent state, a `start` whose `Popen`
raises `FileNotFoundError` surfaces `BinaryMissing` and leaves the state
Absent (process handle clear), but the log handle opened by this `start`
(id 0) is still open — it is not closed on the failure path, contrary to
the claim. -/
theorem c1_counterexample :
    (start XPMState.initial ⟨some "/usr/bin/xray", .fileNotFound, "/logs"⟩).2 =
        .error .binaryMissing ∧
      (start XPMState.initial ⟨some "/usr/bin/xray", .fileNotFound, "/logs"⟩).1.proc = none ∧
      (start XPMState.initial
          ⟨some "/usr/bin/xray", .fileNotFound, "/logs"⟩).1.stdoutHandle = some 0 ∧
      (start XPMState.initial
          ⟨some "/usr/bin/xray", .fileNotFound, "/logs"⟩).1.openHandles = [0] :=
  ⟨rfl, rfl, rfl, rfl⟩

/-- C1 (amended): from the Absent state, when the binary resolves but the
launch fails, `start` raises `BinaryMissing` for `FileNotFoundError` and
`PermissionDenied` for `PermissionError`, and the state stays Absent with
the process handle clear — but the log handle opened during the attempt
remains open (it is not closed on this failure path). -/
theorem c1_amended_launch_failure (s : XPMState) (env : StartEnv)
    (habs : s.proc = none)
    (hres : s.xray ≠ none ∨ env.whichXray ≠ none)
    (hfail : env.launch = .fileNotFound ∨ env.launch = .permissionError) :
    (env.launch = .fileNotFound → (start s env).2 = .error .binaryMissing) ∧
      (env.launch = .permissionError → (start s env).2 = .error .permissionDenied) ∧
      (start s env).1.proc = none ∧
      ∃ hdl, (start s env).1.stdoutHandle = some hdl ∧
        hdl ∈ (start s env).1.openHandles := by
  have hrun : s.isRunning = false := by simp [XPMState.isRunning, habs]
  rcases hx : s.xray with _ | b
  · rcases hw : env.whichXray with _ | p
    · rcases hres with hr | hr
      · exact absurd hx hr
      · exact absurd hw hr
    · rcases hfail with hf | hf <;>
        simp [start, hrun, hx, hw, hf, habs]
  · rcases hfail with hf | hf <;>
      simp [start, hrun, hx, hf, habs]

theorem c1_witness :
    (start XPMState.initial ⟨some "/usr/bin/xray", .permissionError, "/logs"⟩).2 =
        .error .permissionDenied ∧
      (start XPMState.initial
          ⟨some "/usr/bin/xray", .permissionError, "/logs"⟩).1.proc = none ∧
      ∃ hdl, (start XPMState.initial
          ⟨some "/usr/bin/xray", .permissionError, "/logs"⟩).1.stdoutHandle = some hdl ∧
        hdl ∈ (start XPMState.initial
          ⟨some "/usr/bin/xray", .permissionError, "/logs"⟩).1.openHandles := by
  have hth := c1_amended_launch_failure XPMState.initial
    ⟨some "/usr/bin/xray", .permissionError, "/logs"⟩ rfl
    (Or.inr (by simp)) (Or.inr rfl)
  exact ⟨hth.2.1 rfl, hth.2.2.1, hth.2.2.2⟩

def exceptIsError {ε α : Type _} : Except ε α → Bool
  | .error _ => true
  | .ok _ => false

/-- C4: for a parser-produced link record (transport in the enumerated
set), `synthesize` fails with `ConfigBuildError` exactly when the
transport is `grpc` with an empty or absent service name, or the
transport is `tcp` with a camouflage header type normalizing to neither
none/empty nor http; every other record yields a configuration document
without error. -/
theorem c4_synthesize_error_iff (link : VlessLink) (listen : String) (sp hp : Nat)
    (d : String)
    (htrans : link.transport = "tcp" ∨ link.transport = "ws" ∨ link.transport = "grpc") :
    exceptIsError (buildXrayConfig link listen sp hp d) = true ↔
      ((link.transport = "grpc" ∧
          (link.grpcServiceName = none ∨ link.grpcServiceName = some "")) ∨
        (link.transport = "tcp" ∧
          ¬ (lowerStr (pyStrip (link.headerType.getD "none")) = "none" ∨
             lowerStr (pyStrip (link.headerType.getD "none")) = "" ∨
             lowerStr (pyStrip (link.headerType.getD "none")) = "http"))) := by
  rcases htrans with h | h | h
  · by_cases h1 : lowerStr (pyStrip (link.headerType.getD "none")) = "none" ∨
        lowerStr (pyStrip (link.headerType.getD "none")) = ""
    · simp [buildXrayConfig, buildXrayStreamSettings, h, h1, exceptIsError, Except.map]
      tauto
    · by_cases h2 : lowerStr (pyStrip (link.headerType.getD "none")) = "http"
      · simp [buildXrayConfig, buildXrayStreamSettings, h, h1, h2, exceptIsError,
          Except.map]
      · simp [buildXrayConfig, buildXrayStreamSettings, h, h1, h2, exceptIsError,
          Except.map]
  · simp [buildXrayConfig, buildXrayStreamSettings, h, exceptIsError, Except.map]
  · rcases hsvc : link.grpcServiceName with _ | sname
    · simp [buildXrayConfig, buildXrayStreamSettings, h, hsvc, exceptIsError,
        Except.map]
    · by_cases hempty : sname = ""
      · simp [buildXrayConfig, buildXrayStreamSettings, h, hsvc, hempty,
          exceptIsError, Except.map]
      · simp [buildXrayConfig, buildXrayStreamSettings, h, hsvc, hempty,
          exceptIsError, Except.map]

theorem c4_witness :
    exceptIsError (buildXrayConfig
      { scheme := "vless", name := none,
        userId := "550e8400-e29b-41d4-a716-446655440000", host := "host",
        port := 443, encryption := "none", security := "none",
        transport := "grpc", sni := none, fingerprint := none,
        allowInsecure := false, headerType := none, path := none,
        wsHost := none, grpcServiceName := none, flow := none, alpn := none }
      "127.0.0.1" 1080 8080 "/logs") = true :=
  (c4_synthesize_error_iff _ "127.0.0.1" 1080 8080 "/logs"
    (Or.inr (Or.inr rfl))).mpr (Or.inl ⟨rfl, Or.inl rfl⟩)

/-- C5: `synthesize` is pure and deterministic — two calls with equal
link record, listen parameters, and logs directory produce equal
configuration documents, byte-identical once serialized. -/
theorem c5_synthesize_deterministic (l1 l2 : VlessLink)
    (listen1 listen2 : String) (sp1 sp2 hp1 hp2 : Nat) (d1 d2 : String)
    (hl : l1 = l2) (hlisten : listen1 = listen2) (hsp : sp1 = sp2)
    (hhp : hp1 = hp2) (hd : d1 = d2) :
    (buildXrayConfig l1 listen1 sp1 hp1 d1).map jvalDump =
      (buildXrayConfig l2 listen2 sp2 hp2 d2).map jvalDump := by
  subst hl; subst hlisten; subst hsp; subst hhp; subst hd; rfl

theorem c5_witness :
    (buildXrayConfig
      { scheme := "vless", name := none,
        userId := "550e8400-e29b-41d4-a716-446655440000", host := "host",
        port := 443, encryption := "none", security := "tls",
        transport := "tcp", sni := some "sni.example", fingerprint := some "chrome",
        allowInsecure := false, headerType := some "none", path := none,
        wsHost := none, grpcServiceName := none, flow := none, alpn := none }
      "127.0.0.1" 1080 8080 "/logs").map jvalDump =
    (buildXrayConfig
      { scheme := "vless", name := none,
        userId := "550e8400-e29b-41d4-a716-446655440000", host := "host",
        port := 443, encryption := "none", security := "tls",
        transport := "tcp", sni := some "sni.example", fingerprint := some "chrome",
        allowInsecure := false, headerType := some "none", path := none,
        wsHost := none, grpcServiceName := none, flow := none, alpn := none }
      "127.0.0.1" 1080 8080 "/logs").map jvalDump :=
  c5_synthesize_deterministic _ _ _ _ _ _ _ _ _ _ rfl rfl rfl rfl rfl

theorem assocGet_assocSet (k : String) (v : List String) (key : String) :
    ∀ acc, assocGet (assocSet acc k v) key =
      if k = key then some v else assocGet acc key := by
  intro acc
  induction acc with
  | nil =>
    by_cases h : k = key <;> simp [assocSet, assocGet, h]
  | cons p rest ih =>
    rcases p with ⟨k', v'⟩
    by_cases hk : k' = k
    · subst hk
      by_cases hkey : k' = key <;> simp [assocSet, assocGet, hkey]
    · by_cases hkey : k' = key
      · have hknk : ¬ k = key := fun e => hk (hkey.trans e.symm)
        have hkn2 : ¬ key = k := fun e => hknk e.symm
        subst hkey
        simp [assocSet, assocGet, hkn2, hknk]
      · simp [assocSet, assocGet, hk, hkey, ih]

theorem lowerDict_get (key : String) :
    ∀ (d init : List (String × List String)),
      assocGet (d.foldl (fun acc kv => assocSet acc (lowerStr kv.1) kv.2) init) key =
        (match d.reverse.find? (fun g => lowerStr g.1 = key) with
         | some g => some g.2
         | none => assocGet init key) := by
  intro d
  induction d with
  | nil => intro init; simp
  | cons g rest ih =>
    intro init
    simp only [List.foldl_cons, List.reverse_cons]
    rw [ih]
    rcases hfind : rest.reverse.find? (fun p => lowerStr p.1 = key) with _ | g'
    · rw [List.find?_append, hfind]
      rw [assocGet_assocSet]
      by_cases hp : lowerStr g.1 = key
      · simp [List.find?, hp]
      · simp [List.find?, hp]
    · rw [List.find?_append, hfind]
      simp

/-- C3 (amended): the value `_parse_vless` reads for a query key is
computed case-insensitively from the `parse_qs` groups, but across
spellings of a key that differ only in letter case the *last-introduced*
spelling wins (its group overwrites the earlier ones in the lowercasing
dict comprehension), and only then is the first value of that group
taken, with a blank value treated as absent.  The first occurrence wins
only among occurrences that share one exact spelling. -/
theorem c3_amended_query_lookup (qs : String) (key : String) :
    queryFirst (lowerDict (pyParseQs qs)) key =
      (match (pyParseQs qs).reverse.find? (fun g => lowerStr g.1 = key) with
       | none => none
       | some g =>
         match g.2 with
         | [] => none
         | v :: _ => if pyStrip v = "" then none else some (pyStrip v)) := by
  unfold queryFirst lowerDict
  rw [lowerDict_get key (pyParseQs qs) []]
  rcases hfind : (pyParseQs qs).reverse.find? (fun g => lowerStr g.1 = key) with _ | g
  · rw [hfind]
    simp [assocGet]
  · rw [hfind]
    rcases g with ⟨gk, gvs⟩
    rcases gvs with _ | ⟨v, vrest⟩ <;> simp

/-- C3 counterexample: in
`vless://…@host:1?TYPE=ws&type=grpc` the key `type` occurs twice,
differing only in case; the claim predicts the first occurrence (`ws`),
but `parse` yields the later spelling's value `grpc`. -/
theorem c3_counterexample :
    (parseLink
        "vless://550e8400-e29b-41d4-a716-446655440000@host:1?TYPE=ws&type=grpc").map
      (fun l => l.transport) = .ok "grpc" ∧
      (Except.ok "grpc" : Except LinkError String) ≠ .ok "ws" := by
  exact ⟨by decide, by decide⟩

/-- C7 counterexample: `"http://[x"` is a non-empty input whose scheme
(`http`) is outside the recognized set, yet `parse` fails with a raw
`ValueError` from `urlparse`'s authority bracket check — not with
`UnsupportedScheme` (nor `SchemeNotImplemented`), contrary to the
claim. -/
theorem c7_counterexample :
    parseLink "http://[x" = .error (.pyValueError "Invalid IPv6 URL") ∧
      LinkError.pyValueError "Invalid IPv6 URL" ≠ .unsupportedScheme "http" ∧
      LinkError.pyValueError "Invalid IPv6 URL" ≠ .schemeNotImplemented "http" :=
  ⟨by decide, by decide, by decide⟩

/-- C7 (amended): for every input whose trimmed form is non-empty and
which `urlparse` accepts without raising, if the scheme is not `vless`
then `parse` fails and never returns a link record: with
`UnsupportedScheme` when the scheme is outside the recognized set
{vmess, vless, trojan, ss}, and with the scheme-not-implemented
`UnsupportedSchemeError` when it is recognized but not `vless`.
(Whitespace-only inputs fail with `EmptyInput` instead, and inputs
`urlparse` rejects fail with its raw `ValueError`.) -/
theorem c7_amended_scheme_dispatch (raw : String) (parts : UrlSplitResult)
    (hne : pyStrip raw ≠ "")
    (hsplit : pyUrlsplit (pyStrip raw) = .ok parts)
    (hnotvless : lowerStr parts.scheme ≠ "vless") :
    parseLink raw =
      .error (if lowerStr parts.scheme ∈ SUPPORTED_SCHEMES
        then .schemeNotImplemented (lowerStr parts.scheme)
        else .unsupportedScheme (lowerStr parts.scheme)) := by
  simp only [parseLink]
  rw [if_neg hne, hsplit]
  by_cases hmem : lowerStr parts.scheme ∈ SUPPORTED_SCHEMES
  · simp [hmem, hnotvless]
  · simp [hmem]

theorem c7_witness :
    parseLink "vmess://abcd" = .error (.schemeNotImplemented "vmess") :=
  (c7_amended_scheme_dispatch "vmess://abcd" ⟨"vmess", "abcd", "", "", ""⟩
    (by decide) (by decide) (by decide)).trans (by decide)

theorem pyPort_ok_le (r : UrlSplitResult) (v : Nat)
    (h : pyPort r = .ok (some v)) : v ≤ 65535 := by
  simp only [pyPort] at h
  split at h
  · simp at h
  · split at h
    · split at h
      next hle => simp only [Except.ok.injEq, Option.some.injEq] at h; omega
      next => simp at h
    · simp at h

theorem parseVless_ok_invariant (s : String) (link : VlessLink)
    (h : parseVless s = .ok link) :
    pyUUIDValid link.userId = true ∧ link.host ≠ "" ∧ link.port ≤ 65535 := by
  simp only [parseVless] at h
  split at h
  · simp at h
  next parts heqsplit =>
    split at h
    · simp at h
    next portOpt heqport =>
      split at h
      · simp at h
      next port =>
        split at h
        · simp at h
        next hmal =>
          split at h
          · simp at h
          next huuid =>
            split at h
            · simp at h
            next htr =>
              split at h
              · simp at h
              next hsec =>
                simp only [Except.ok.injEq] at h
                subst h
                exact ⟨not_not.mp huuid, fun e => hmal (Or.inr e),
                  pyPort_ok_le parts port heqport⟩

/-- C2 (amended): every link record `parse` returns satisfies: the
credential identifier is accepted by the UUID parser, the remote host is
non-empty, and the remote port is at most 65535.  The lower bound of the
claim does not hold: port 0 is accepted (the port check of `urlparse`
admits 0–65535). -/
theorem c2_amended_parse_invariant (raw : String) (link : VlessLink)
    (h : parseLink raw = .ok link) :
    pyUUIDValid link.userId = true ∧ link.host ≠ "" ∧ link.port ≤ 65535 := by
  simp only [parseLink] at h
  split at h
  · simp at h
  · split at h
    · simp at h
    · split at h
      · simp at h
      · split at h
        · simp at h
        · exact parseVless_ok_invariant _ _ h

/-- C2 counterexample: `vless://<uuid>@host:0` parses successfully with
remote port 0, which is outside the claimed range 1–65535. -/
theorem c2_counterexample :
    (parseLink "vless://550e8400-e29b-41d4-a716-446655440000@host:0").map
      (fun l => l.port) = .ok 0 ∧ ¬ (1 ≤ (0 : Nat)) :=
  ⟨by decide, by decide⟩

theorem c2_witness :
    pyUUIDValid "b345f204-4df1-4d31-8243-dae7845099ad" = true ∧
      ("prime.example.com" : String) ≠ "" ∧ (443 : Nat) ≤ 65535 :=
  c2_amended_parse_invariant
    "vless://b345f204-4df1-4d31-8243-dae7845099ad@prime.example.com:443?security=tls&type=tcp&sni=aka.ms#UdayaSri"
    { scheme := "vless", name := some "UdayaSri",
      userId := "b345f204-4df1-4d31-8243-dae7845099ad",
      host := "prime.example.com", port := 443, encryption := "none",
      security := "tls", transport := "tcp", sni := some "aka.ms",
      fingerprint := none, allowInsecure := false, headerType := none,
      path := none, wsHost := none, grpcServiceName := none, flow := none,
      alpn := none }
    (by decide)

end V2Link
